import Mathlib

/-!
Verification development for the conversational chat server.

The TypeScript sources are shallowly embedded:
* `server/storage.ts` (`DatabaseStorage`) becomes pure functions over an
  explicit `AppState`; each database call is total and the wall clock is an
  explicit `now : Nat` argument (epoch instant).
* `server/routes.ts` (`registerRoutes`) becomes one Lean function per route
  handler, returning a response value together with the successor state.
* The inline reply cascade of the `POST /api/conversations/:id/messages`
  handler is extracted as `generateReply`; JavaScript `eval` on the cleaned
  arithmetic string is modelled as an explicit parameter
  `evalFn : String → Option DecNum` (`none` models an evaluation that throws),
  and `new Date()` as the explicit `now` argument.
* JavaScript numbers arising from `parseFloat` on regex groups of shape
  `\d+(\.\d+)?` are modelled as exact scaled decimals (`DecNum`); on the
  concrete values appearing in the theorems below this agrees with IEEE-754
  doubles.
-/

/-- A stored user row (`users` table). -/
structure User where
  id : String
  username : String
  password : String
  deriving Repr, DecidableEq

/-- A stored conversation row (`conversations` table). Timestamps are epoch instants. -/
structure Conversation where
  id : String
  userId : String
  title : String
  createdAt : Nat
  updatedAt : Nat
  deriving Repr, DecidableEq

/-- A stored message row (`messages` table). -/
structure Message where
  id : String
  conversationId : String
  content : String
  role : String
  createdAt : Nat
  deriving Repr, DecidableEq

/-- The persistent state behind `DatabaseStorage`.  Database-generated unique
row ids are modelled by the counter `nextId`. -/
structure AppState where
  users : List User
  conversations : List Conversation
  messages : List Message
  nextId : Nat
  deriving Repr, DecidableEq

/-- Database-generated id, modelled from the counter. -/
def genId (n : Nat) : String := "id-" ++ toString n

/-! ## String helpers (JavaScript string primitives used by the routes) -/

/-- JavaScript `s.toLowerCase()` (its ASCII fragment), written via the
character list so that the kernel can evaluate it. -/
def strToLower (s : String) : String := String.mk (s.toList.map Char.toLower)

/-- Whether `n` occurs as a contiguous sublist of `h`: JavaScript
`String.prototype.includes` on the underlying character lists. -/
def containsSub (n : List Char) : List Char → Bool
  | [] => n.isEmpty
  | c :: t => n.isPrefixOf (c :: t) || containsSub n t

/-- JavaScript `s.includes(pat)` (all patterns used by the routes are ASCII,
so code-unit and code-point containment coincide). -/
def strIncludes (s pat : String) : Bool := containsSub pat.toList s.toList

/-! ## Scaled-decimal numbers and `Number.prototype.toLocaleString` -/

/-- A decimal number `(-1)^neg * m / 10^s`, the model of the JavaScript
numbers produced by the math branch of the reply cascade. -/
structure DecNum where
  m : Nat
  s : Nat
  neg : Bool := false
  deriving Repr, DecidableEq

/-- Product of two scaled decimals, the model of JavaScript `num1 * num2`. -/
def DecNum.mul (a b : DecNum) : DecNum :=
  ⟨a.m * b.m, a.s + b.s, a.neg != b.neg⟩

/-- Insert a thousands separator before every third digit, processing the
reversed digit list. -/
def commaRev : List Char → Nat → List Char
  | [], _ => []
  | c :: cs, k =>
    if k ≥ 3 then ',' :: c :: commaRev cs 1
    else c :: commaRev cs (k + 1)

/-- `n.toLocaleString()` for a natural number under the default locale model:
decimal digits grouped in threes by commas. -/
def natGrouped (n : Nat) : String :=
  String.mk ((commaRev (toString n).toList.reverse 0).reverse)

/-- Strip trailing zero digits from a fractional-part rendering. -/
def stripTrailingZeros (s : List Char) : List Char :=
  (s.reverse.dropWhile (fun c => c == '0')).reverse

/-- Left-pad a digit string to three characters with zeros. -/
def pad3 (s : List Char) : List Char :=
  List.replicate (3 - s.length) '0' ++ s

/-- Round the magnitude of `d` to integer part and thousandths (the default
`toLocaleString` keeps at most 3 fraction digits, rounding half away from
zero). -/
def DecNum.round3 (d : DecNum) : Nat × Nat :=
  if d.s ≤ 3 then (d.m / 10 ^ d.s, d.m % 10 ^ d.s * 10 ^ (3 - d.s))
  else
    let t := (d.m * 1000 + 10 ^ d.s / 2) / 10 ^ d.s
    (t / 1000, t % 1000)

/-- `Number.prototype.toLocaleString()` under the default-locale model:
thousands grouping on the integer part, at most three fraction digits,
trailing fractional zeros dropped. -/
def DecNum.toLocaleString (d : DecNum) : String :=
  let p := d.round3
  let sign := if d.neg then "-" else ""
  if p.2 == 0 then sign ++ natGrouped p.1
  else sign ++ natGrouped p.1 ++ "." ++ String.mk (stripTrailingZeros (pad3 (toString p.2).toList))

/-! ## The math-branch regex `/(\d+(?:\.\d+)?)\s*[x*]\s*(\d+(?:\.\d+)?)/i` -/

/-- ASCII decimal digit, the regex class `\d`. -/
def isDigitChar (c : Char) : Bool := '0' ≤ c && c ≤ '9'

/-- The regex class `\s` restricted to the whitespace that can appear in chat
text. -/
def isSpaceChar (c : Char) : Bool := c == ' ' || c == '\t' || c == '\n' || c == '\r'

/-- Match `\d+(?:\.\d+)?` at the head of the input, greedily; returns the
matched characters and the remainder.  (For this pattern greedy matching
without backtracking is equivalent to the backtracking regex semantics: when
the optional fraction is present, skipping it leaves a `.` which no later
regex element can consume.) -/
def matchNumber (cs : List Char) : Option (List Char × List Char) :=
  let p := cs.span isDigitChar
  if p.1.isEmpty then none
  else
    match p.2 with
    | '.' :: rest2 =>
      let q := rest2.span isDigitChar
      if q.1.isEmpty then some (p.1, p.2)
      else some (p.1 ++ '.' :: q.1, q.2)
    | _ => some (p.1, p.2)

/-- Match the whole pattern `(\d+(?:\.\d+)?)\s*[x*]\s*(\d+(?:\.\d+)?)` (with
the `i` flag, so the separator is `x`, `X` or `*`) anchored at the head of the
input, returning the two captured number strings. -/
def matchMulAt (cs : List Char) : Option (List Char × List Char) :=
  match matchNumber cs with
  | none => none
  | some (n1, r1) =>
    match r1.dropWhile isSpaceChar with
    | [] => none
    | c :: r3 =>
      if c == 'x' || c == 'X' || c == '*' then
        match matchNumber (r3.dropWhile isSpaceChar) with
        | none => none
        | some (n2, _) => some (n1, n2)
      else none

/-- `content.match(/(\d+(?:\.\d+)?)\s*[x*]\s*(\d+(?:\.\d+)?)/i)`: the leftmost
match, found by trying every start position from the left. -/
def mathMatch : List Char → Option (List Char × List Char)
  | [] => none
  | c :: rest =>
    match matchMulAt (c :: rest) with
    | some p => some p
    | none => mathMatch rest

/-- Digit characters to the natural number they denote. -/
def digitsToNat (ds : List Char) : Nat :=
  ds.foldl (fun a c => a * 10 + (c.toNat - 48)) 0

/-- `parseFloat` on a captured group of shape `\d+(\.\d+)?`, modelled exactly
as a scaled decimal. -/
def parseDec (cs : List Char) : DecNum :=
  let p := cs.span isDigitChar
  match p.2 with
  | _ :: fs => ⟨digitsToNat p.1 * 10 ^ fs.length + digitsToNat fs, fs.length, false⟩
  | [] => ⟨digitsToNat p.1, 0, false⟩

/-- Membership in the character class `[0-9+\-*/().]`. -/
def isMathChar (c : Char) : Bool :=
  isDigitChar c || c == '+' || c == '-' || c == '*' || c == '/' ||
    c == '(' || c == ')' || c == '.'

/-- `content.replace(/[^0-9+\-*\/().]/g, "")`. -/
def cleanMath (content : String) : String :=
  String.mk (content.toList.filter isMathChar)

/-! ## The reply cascade of `POST /api/conversations/:id/messages` -/

/-- Guard of the math branch: the lowercased content contains one of the
operator tokens. -/
def mathGuard (content : String) : Bool :=
  let lower := strToLower content
  strIncludes lower "x" || strIncludes lower "*" || strIncludes lower "+" ||
    strIncludes lower "-" || strIncludes lower "/"

/-- Guard of the greeting branch. -/
def greetingGuard (content : String) : Bool :=
  strIncludes (strToLower content) "hello" || strIncludes (strToLower content) "hi"

/-- Guard of the status branch. -/
def statusGuard (content : String) : Bool :=
  strIncludes (strToLower content) "how are you"

/-- Guard of the capability branch. -/
def capabilityGuard (content : String) : Bool :=
  strIncludes (strToLower content) "what can you do"

/-- Guard of the gratitude branch. -/
def gratitudeGuard (content : String) : Bool :=
  strIncludes (strToLower content) "thank"

/-- Guard of the time/date branch. -/
def timeGuard (content : String) : Bool :=
  strIncludes (strToLower content) "time" || strIncludes (strToLower content) "date"

/-- Reply of the product branch (the `Ã—` reproduces the two characters present
in the source template literal). -/
def mathReply (n1 n2 r : DecNum) : String :=
  "The answer is: **" ++ r.toLocaleString ++ "**\n\nCalculation: " ++
    n1.toLocaleString ++ " Ã— " ++ n2.toLocaleString ++ " = " ++ r.toLocaleString

/-- Reply when the free-form arithmetic evaluation succeeds. -/
def evalReply (r : DecNum) : String :=
  "The answer is: **" ++ r.toLocaleString ++ "**"

/-- Clarification reply of the math branch `catch`. -/
def clarificationReply : String :=
  "I can help with basic math calculations. Could you rephrase your question with a clearer mathematical expression?"

/-- Fixed greeting reply. -/
def greetingReply : String :=
  "Hello! I\x27m your AI assistant. How can I help you today?"

/-- Fixed well-being reply. -/
def statusReply : String :=
  "I\x27m doing well, thank you for asking! I\x27m here to help you with any questions or tasks you have."

/-- Fixed capability-list reply. -/
def capabilityReply : String :=
  "I can help you with various tasks like:\n\n- **Math calculations** (try asking me to multiply large numbers!)\n- **Answering questions**\n- **Providing explanations**\n- **Writing assistance**\n- **Problem solving**\n- **General conversation**\n\nWhat would you like help with?"

/-- Fixed gratitude acknowledgment reply. -/
def gratitudeReply : String :=
  "You\x27re welcome! Is there anything else I can help you with?"

/-- Locale rendering of the clock instant (`new Date().toLocaleTimeString()`);
modelled abstractly as the numeral of the instant. -/
def localeTimeString (now : Nat) : String := toString now

/-- Locale rendering of the clock date (`new Date().toLocaleDateString()`);
modelled abstractly as the numeral of the instant. -/
def localeDateString (now : Nat) : String := toString now

/-- Reply of the time/date branch; it embeds the current clock instant. -/
def timeReply (now : Nat) : String :=
  "The current time is: **" ++ localeTimeString now ++ "**\nThe current date is: **" ++
    localeDateString now ++ "**"

/-- Fallback reply echoing the original message content. -/
def fallbackReply (content : String) : String :=
  "I understand you\x27re asking about \"" ++ content ++
    "\". I\x27m a demo AI assistant that can help with basic questions, math calculations, and general conversation.\n\n**Try asking me:**\n- Math problems (like \"what is 123 x 456?\")\n- \"What can you do?\"\n- \"What time is it?\"\n- General questions\n\nFor advanced AI capabilities with real knowledge, you would need to connect to OpenAI or another AI service. This interface demonstrates all the ChatGPT-style features without requiring payment!"

/-- Apology persisted by the failure-recovery branch of the message route. -/
def apologyReply : String :=
  "I\x27m sorry, I\x27m having trouble generating a response right now. Please try again in a moment."

/-- The inline reply cascade of the message route, evaluated as an ordered
first-match rule list.  `evalFn` models JavaScript `eval` on the cleaned
arithmetic string (`none` models a thrown evaluation error, which the inner
`try` converts into the clarification reply); `now` models `new Date()`.  The
result is `none` exactly when the source leaves `aiResponse` undefined: the
math branch matched, no product pattern was found, and the cleaned string is
empty. -/
def generateReply (evalFn : String → Option DecNum) (now : Nat) (content : String) :
    Option String :=
  if mathGuard content then
    match mathMatch content.toList with
    | some (g1, g2) =>
      let num1 := parseDec g1
      let num2 := parseDec g2
      some (mathReply num1 num2 (num1.mul num2))
    | none =>
      let cm := cleanMath content
      if cm ≠ "" ∧ cm.toList.all isMathChar then
        match evalFn cm with
        | some r => some (evalReply r)
        | none => some clarificationReply
      else none
  else if greetingGuard content then some greetingReply
  else if statusGuard content then some statusReply
  else if capabilityGuard content then some capabilityReply
  else if gratitudeGuard content then some gratitudeReply
  else if timeGuard content then some (timeReply now)
  else some (fallbackReply content)

/-- Whether the content triggers none of the cascade's pattern rules, so that
the fallback reply applies. -/
def matchesNoRule (content : String) : Bool :=
  !(mathGuard content || greetingGuard content || statusGuard content ||
    capabilityGuard content || gratitudeGuard content || timeGuard content)

/-! ## The persistence layer (`DatabaseStorage`) -/

/-- `storage.getUser(id)`. -/
def getUser (st : AppState) (id : String) : Option User :=
  st.users.find? (fun u => u.id == id)

/-- `storage.getUserByUsername(username)`. -/
def getUserByUsername (st : AppState) (username : String) : Option User :=
  st.users.find? (fun u => u.username == username)

/-- `storage.createUser(userData)`: stores the bcrypt hash of the password;
the hash primitive is the explicit parameter `hashFn`. -/
def createUser (hashFn : String → String) (st : AppState) (username password : String) :
    User × AppState :=
  let user : User := ⟨genId st.nextId, username, hashFn password⟩
  (user, { st with users := st.users ++ [user], nextId := st.nextId + 1 })

/-- `storage.getConversation(id)`. -/
def getConversation (st : AppState) (id : String) : Option Conversation :=
  st.conversations.find? (fun c => c.id == id)

/-- The fields callers pass to `storage.updateConversation` (a
`Partial<Conversation>`): the routes only ever pass `title` and `updatedAt`,
and `.set({...updates, updatedAt: new Date()})` overwrites any supplied
`updatedAt` with the current instant. -/
structure ConversationUpdate where
  title : Option String := none
  updatedAtArg : Option Nat := none
  deriving Repr, DecidableEq

/-- Apply `.set({...updates, updatedAt: new Date()})` to one row: the title is
replaced when supplied and the updated timestamp always becomes `now`. -/
def applyUpdate (c : Conversation) (u : ConversationUpdate) (now : Nat) : Conversation :=
  { c with title := u.title.getD c.title, updatedAt := now }

/-- `storage.updateConversation(id, updates)`: updates every row whose id
matches and returns the updated row (or `none` when the id is absent). -/
def updateConversation (st : AppState) (id : String) (u : ConversationUpdate) (now : Nat) :
    Option Conversation × AppState :=
  ((st.conversations.find? (fun c => c.id == id)).map (fun c => applyUpdate c u now),
   { st with conversations :=
      st.conversations.map (fun c => if c.id == id then applyUpdate c u now else c) })

/-- `storage.deleteConversation(id)`: first deletes all messages of the
conversation, then the conversation row itself; the returned flag is
`rowCount > 0` for the second delete, i.e. whether a conversation row matched. -/
def deleteConversation (st : AppState) (id : String) : Bool × AppState :=
  (st.conversations.any (fun c => c.id == id),
   { st with
      messages := st.messages.filter (fun m => !(m.conversationId == id)),
      conversations := st.conversations.filter (fun c => !(c.id == id)) })

/-- `storage.getMessages(conversationId)`: the conversation's messages ordered
by creation time. -/
def getMessages (st : AppState) (conversationId : String) : List Message :=
  (st.messages.filter (fun m => m.conversationId == conversationId)).insertionSort
    (fun a b => a.createdAt ≤ b.createdAt)

/-- The fields of an `InsertMessage`. -/
structure InsertMessage where
  conversationId : String
  content : String
  role : String
  deriving Repr, DecidableEq

/-- `storage.createMessage(messageData)`: inserts the row and, as a side
effect, calls `updateConversation(conversationId, {})`, which bumps the parent
conversation's updated timestamp to `now`. -/
def createMessage (st : AppState) (d : InsertMessage) (now : Nat) : Message × AppState :=
  let msg : Message := ⟨genId st.nextId, d.conversationId, d.content, d.role, now⟩
  let st1 : AppState := { st with messages := st.messages ++ [msg], nextId := st.nextId + 1 }
  (msg, (updateConversation st1 d.conversationId {} now).2)

/-- The parsed body of `POST /api/conversations`.  Modelled from the spec:
`insertConversationSchema` is defined in `@shared/schema`, which is not among
the sources; per the spec a conversation carries a title (empty/default when
unset) and an owning user id, so the parsed body may carry either field. -/
structure ConversationBody where
  title : Option String := none
  userId : Option String := none
  deriving Repr, DecidableEq

/-- `storage.createConversation(conversationData)` for the data built by the
route: `{...data, userId: req.userId!}`, so the stored owner is the `userId`
of the argument record. -/
def createConversation (st : AppState) (ownerId title : String) (now : Nat) :
    Conversation × AppState :=
  let conv : Conversation := ⟨genId st.nextId, ownerId, title, now, now⟩
  (conv, { st with conversations := st.conversations ++ [conv], nextId := st.nextId + 1 })

/-! ## Authentication middleware (`requireAuth` in `server/auth.ts`) -/

/-- `requireAuth`: extract the bearer token from the `Authorization` header
and verify it; `verifyFn` models `verifyToken` (JWT verification against the
server secret), returning the `userId` carried by a valid token.  The error
payloads are the 401 responses of the middleware. -/
def requireAuth (verifyFn : String → Option String) (authHeader : Option String) :
    Except (Nat × String) String :=
  match authHeader with
  | none => .error (401, "Authentication required")
  | some h =>
    if "Bearer ".toList.isPrefixOf h.toList then
      match verifyFn (String.mk (h.toList.drop 7)) with
      | none => .error (401, "Invalid or expired token")
      | some uid => .ok uid
    else .error (401, "Authentication required")

/-! ## Route handlers (`registerRoutes` in `server/routes.ts`) -/

/-- Response of `POST /api/auth/register`: on success the user is returned
without its password field, together with a token. -/
inductive AuthResponse where
  | ok (userId username token : String)
  | failure (status : Nat) (message : String)
  deriving Repr, DecidableEq

/-- `POST /api/auth/register`.  `hashFn` models bcrypt hashing and `tokenFn`
models `generateToken`.  Modelled from the spec for the missing
`@shared/schema`: `insertUserSchema.parse` accepts a record of the two string
fields `username` and `password`. -/
def registerRoute (hashFn tokenFn : String → String) (st : AppState)
    (username password : String) : AuthResponse × AppState :=
  match getUserByUsername st username with
  | some _ => (.failure 400 "Username already exists", st)
  | none =>
    let p := createUser hashFn st username password
    (.ok p.1.id p.1.username (tokenFn p.1.id), p.2)

/-- Response of the conversation-reading routes. -/
inductive ConvResponse where
  | json (conversation : Conversation)
  | failure (status : Nat) (message : String)
  deriving Repr, DecidableEq

/-- HTTP status of a `ConvResponse` (`res.json` responds with 200). -/
def ConvResponse.status : ConvResponse → Nat
  | .json _ => 200
  | .failure s _ => s

/-- `GET /api/conversations/:id`: existence is checked before ownership. -/
def getConversationRoute (verifyFn : String → Option String) (authHeader : Option String)
    (st : AppState) (id : String) : ConvResponse :=
  match requireAuth verifyFn authHeader with
  | .error e => .failure e.1 e.2
  | .ok uid =>
    match getConversation st id with
    | none => .failure 404 "Conversation not found"
    | some conversation =>
      if conversation.userId ≠ uid then .failure 403 "Access denied"
      else .json conversation

/-- `POST /api/conversations`: the stored owner is `req.userId` from the
verified token; any `userId` in the parsed body is overwritten by the spread
`{...data, userId: req.userId!}`. -/
def postConversationsRoute (verifyFn : String → Option String) (authHeader : Option String)
    (st : AppState) (body : ConversationBody) (now : Nat) : ConvResponse × AppState :=
  match requireAuth verifyFn authHeader with
  | .error e => (.failure e.1 e.2, st)
  | .ok uid =>
    let p := createConversation st uid (body.title.getD "") now
    (.json p.1, p.2)

/-- Response of `POST /api/conversations/:id/messages`: `ok` is the 200
payload `{userMessage, aiMessage}`, `degraded` the 500 recovery payload
`{userMessage, aiMessage, error}`. -/
inductive MsgResponse where
  | ok (userMessage aiMessage : Message)
  | degraded (userMessage aiMessage : Message) (error : String)
  | failure (status : Nat) (message : String)
  deriving Repr, DecidableEq

/-- HTTP status of a `MsgResponse`. -/
def MsgResponse.status : MsgResponse → Nat
  | .ok _ _ => 200
  | .degraded _ _ _ => 500
  | .failure s _ => s

/-- The first-message title: the content truncated to its first 50 characters
plus an ellipsis when longer than 50 characters. -/
def deriveTitle (content : String) : String :=
  if content.length > 50 then content.take 50 ++ "..." else content

/-- `POST /api/conversations/:id/messages`.  The request body's `content`
field is `none` when missing or not a string; a present empty string is also
rejected (`!content` is true for `""`).  When `generateReply` yields `none`
the source's `aiResponse` is left undefined and the subsequent
`storage.createMessage` fails (modelled from the spec: a message's content is
required text), landing in the inner `catch`, which persists the apology as
the assistant reply and responds 500. -/
def postMessageRoute (evalFn : String → Option DecNum) (verifyFn : String → Option String)
    (authHeader : Option String) (st : AppState) (conversationId : String)
    (body : Option String) (now : Nat) : MsgResponse × AppState :=
  match requireAuth verifyFn authHeader with
  | .error e => (.failure e.1 e.2, st)
  | .ok uid =>
    match body with
    | none => (.failure 400 "Message content is required", st)
    | some content =>
      if content = "" then (.failure 400 "Message content is required", st)
      else
        match getConversation st conversationId with
        | none => (.failure 404 "Conversation not found", st)
        | some conversation =>
          if conversation.userId ≠ uid then (.failure 403 "Access denied", st)
          else
            let pu := createMessage st ⟨conversationId, content, "user"⟩ now
            let messages := getMessages pu.2 conversationId
            match generateReply evalFn now content with
            | some aiResponse =>
              let pa := createMessage pu.2 ⟨conversationId, aiResponse, "assistant"⟩ now
              let st3 :=
                if messages.length == 1 then
                  (updateConversation pa.2 conversationId ⟨some (deriveTitle content), none⟩ now).2
                else pa.2
              let st4 := (updateConversation st3 conversationId ⟨none, some now⟩ now).2
              (.ok pu.1 pa.1, st4)
            | none =>
              let pe := createMessage pu.2 ⟨conversationId, apologyReply, "assistant"⟩ now
              (.degraded pu.1 pe.1 "Response generation temporarily unavailable", pe.2)

/-! ## Helper lemmas -/

/-- A list has a match for `p` exactly when `find?` finds one. -/
theorem any_eq_isSome_find (l : List α) (p : α → Bool) :
    l.any p = (l.find? p).isSome := by
  induction l with
  | nil => rfl
  | cons a l ih =>
    cases h : p a <;> simp [List.find?_cons, h, ih]

/-- `applyUpdate` never changes the row id. -/
theorem applyUpdate_id (c : Conversation) (u : ConversationUpdate) (now : Nat) :
    (applyUpdate c u now).id = c.id := rfl

/-- `find?` by id commutes with the row-map performed by `updateConversation`. -/
theorem find_map_update (l : List Conversation) (id : String) (u : ConversationUpdate)
    (now : Nat) :
    (l.map (fun c => if c.id == id then applyUpdate c u now else c)).find?
        (fun c => c.id == id)
      = (l.find? (fun c => c.id == id)).map (fun c => applyUpdate c u now) := by
  induction l with
  | nil => rfl
  | cons c l ih =>
    rw [List.map_cons, List.find?_cons, List.find?_cons]
    cases h : c.id == id with
    | true => simp [applyUpdate_id, h]
    | false => simp only [Bool.false_eq_true, if_false, h, ih]

/-- Reading back an updated conversation returns the updated row. -/
theorem getConversation_update (st : AppState) (id : String) (u : ConversationUpdate)
    (now : Nat) :
    getConversation (updateConversation st id u now).2 id
      = (getConversation st id).map (fun c => applyUpdate c u now) := by
  unfold getConversation updateConversation
  exact find_map_update _ _ _ _

/-- Reading back the parent conversation after `createMessage` returns the row
with its timestamp bumped. -/
theorem getConversation_createMessage (st : AppState) (d : InsertMessage) (now : Nat) :
    getConversation (createMessage st d now).2 d.conversationId
      = (getConversation st d.conversationId).map (fun c => applyUpdate c {} now) := by
  unfold createMessage
  exact find_map_update _ _ _ _

/-- `updateConversation` does not touch the message table. -/
theorem messages_update (st : AppState) (id : String) (u : ConversationUpdate) (now : Nat) :
    (updateConversation st id u now).2.messages = st.messages := rfl

/-- `createMessage` appends exactly the returned row to the message table. -/
theorem messages_createMessage (st : AppState) (d : InsertMessage) (now : Nat) :
    (createMessage st d now).2.messages = st.messages ++ [(createMessage st d now).1] := rfl

/-- `getMessages` is a permutation of the unsorted filter of the message table. -/
theorem getMessages_perm (st : AppState) (cid : String) :
    (getMessages st cid).Perm (st.messages.filter (fun m => m.conversationId == cid)) :=
  List.perm_insertionSort _ _

/-- Length of a conversation's message list. -/
theorem getMessages_length (st : AppState) (cid : String) :
    (getMessages st cid).length
      = (st.messages.filter (fun m => m.conversationId == cid)).length :=
  (getMessages_perm st cid).length_eq

/-- Emptiness of a conversation's message list. -/
theorem getMessages_nil (st : AppState) (cid : String) :
    getMessages st cid = [] ↔ st.messages.filter (fun m => m.conversationId == cid) = [] := by
  have h := getMessages_perm st cid
  constructor
  · intro e; rw [e] at h; exact h.symm.eq_nil
  · intro e; rw [e] at h; exact h.eq_nil

/-- Membership in a conversation's message list. -/
theorem mem_getMessages (st : AppState) (cid : String) (m : Message) :
    m ∈ getMessages st cid ↔ m ∈ st.messages ∧ m.conversationId = cid := by
  rw [(getMessages_perm st cid).mem_iff, List.mem_filter]
  simp

/-- Every character surviving `cleanMath` is in the arithmetic class, so the
source's follow-up regex test `/^[0-9+\-*\/().]+$/` succeeds on any nonempty
cleaned string. -/
theorem cleanMath_all (content : String) :
    (cleanMath content).toList.all isMathChar = true := by
  simp only [cleanMath, List.all_eq_true]
  intro a ha
  exact List.of_mem_filter ha

/-- The cascade returns the fallback reply whenever no rule guard fires. -/
theorem generateReply_of_noRule (evalFn : String → Option DecNum) (now : Nat)
    (content : String) (h : matchesNoRule content = true) :
    generateReply evalFn now content = some (fallbackReply content) := by
  simp only [matchesNoRule, Bool.not_eq_true', Bool.or_eq_false_iff] at h
  obtain ⟨⟨⟨⟨⟨h1, h2⟩, h3⟩, h4⟩, h5⟩, h6⟩ := h
  unfold generateReply
  rw [h1, h2, h3, h4, h5, h6]
  simp

/-- The cascade's math branch on a successful product match. -/
theorem generateReply_of_mathMatch (evalFn : String → Option DecNum) (now : Nat)
    (content : String) (g1 g2 : List Char) (hg : mathGuard content = true)
    (hm : mathMatch content.toList = some (g1, g2)) :
    generateReply evalFn now content
      = some (mathReply (parseDec g1) (parseDec g2) ((parseDec g1).mul (parseDec g2))) := by
  unfold generateReply
  rw [hg, hm]
  rfl

/-- The cascade answers a greeting when no operator token is present and a
greeting token is. -/
theorem generateReply_of_greeting (evalFn : String → Option DecNum) (now : Nat)
    (content : String) (h1 : mathGuard content = false) (h2 : greetingGuard content = true) :
    generateReply evalFn now content = some greetingReply := by
  unfold generateReply
  rw [h1, h2]
  rfl

/-- The cascade acknowledges gratitude when the five earlier guards fail and
the gratitude guard fires. -/
theorem generateReply_of_gratitude (evalFn : String → Option DecNum) (now : Nat)
    (content : String) (h1 : mathGuard content = false) (h2 : greetingGuard content = false)
    (h3 : statusGuard content = false) (h4 : capabilityGuard content = false)
    (h5 : gratitudeGuard content = true) :
    generateReply evalFn now content = some gratitudeReply := by
  unfold generateReply
  rw [h1, h2, h3, h4, h5]
  rfl

/-! ## Claim theorems -/

/-- C1: the reply generator is an ordered first-match rule cascade: on
`"what is 12 x 4?"` the reply contains the literal `48`; on `"hello"` it is
the fixed greeting reply; on `"thank you"` it is the fixed gratitude
acknowledgment; and on any input matching no rule it is the fallback reply
echoing the original input text. -/
theorem C1_reply_rule_cascade (evalFn : String → Option DecNum) (now : Nat) (content : String)
    (h : matchesNoRule content = true) :
    (∃ r, generateReply evalFn now "what is 12 x 4?" = some r ∧ strIncludes r "48" = true) ∧
    generateReply evalFn now "hello" = some greetingReply ∧
    generateReply evalFn now "thank you" = some gratitudeReply ∧
    generateReply evalFn now content = some (fallbackReply content) := by
  refine ⟨⟨_, generateReply_of_mathMatch evalFn now _ "12".toList "4".toList (by decide)
      (by decide), by decide⟩,
    generateReply_of_greeting evalFn now _ (by decide) (by decide),
    generateReply_of_gratitude evalFn now _ (by decide) (by decide) (by decide) (by decide)
      (by decide),
    generateReply_of_noRule evalFn now content h⟩

set_option maxRecDepth 8192 in
/-- Witness for C1 at the rule-free input `"zzz"`. -/
theorem C1_witness :
    generateReply (fun _ => none) 0 "zzz" = some (fallbackReply "zzz") ∧
    generateReply (fun _ => none) 0 "hello" = some greetingReply :=
  ⟨(C1_reply_rule_cascade (fun _ => none) 0 "zzz" (by decide)).2.2.2,
   (C1_reply_rule_cascade (fun _ => none) 0 "zzz" (by decide)).2.1⟩

/-- C2 fails on the code: the input `"x"` contains an operator token, no
product pattern is extractable and the stripped remainder is empty (hence not
an evaluable arithmetic expression), yet the reply is absent (`none`, the
source's undefined `aiResponse`), not a clarification message. -/
theorem C2_counterexample :
    mathGuard "x" = true ∧ mathMatch "x".toList = none ∧ cleanMath "x" = "" ∧
      generateReply (fun _ => none) 0 "x" = none := by decide

/-- C2 (amended): with an operator token present and no product pattern, the
clarification message is returned when the stripped remainder is nonempty and
its evaluation fails; when the stripped remainder is empty, the reply is
absent. -/
theorem C2_math_branch_clarification (evalFn : String → Option DecNum) (now : Nat)
    (content : String) (hop : mathGuard content = true)
    (hnm : mathMatch content.toList = none) :
    (cleanMath content ≠ "" → evalFn (cleanMath content) = none →
      generateReply evalFn now content = some clarificationReply) ∧
    (cleanMath content = "" → generateReply evalFn now content = none) := by
  have key : generateReply evalFn now content
      = if cleanMath content ≠ "" ∧ (cleanMath content).toList.all isMathChar then
          match evalFn (cleanMath content) with
          | some r => some (evalReply r)
          | none => some clarificationReply
        else none := by
    unfold generateReply
    rw [hop, hnm]
    rfl
  rw [key]
  constructor
  · intro hne hev
    rw [if_pos ⟨hne, cleanMath_all content⟩, hev]
  · intro he
    rw [if_neg]
    simp [he]

/-- Witness for C2 (amended) at `"1+"` (evaluation throws, clarification) and
`"x"` (empty remainder, absent reply). -/
theorem C2_witness :
    generateReply (fun _ => none) 0 "1+" = some clarificationReply ∧
      generateReply (fun _ => none) 0 "x" = none :=
  ⟨(C2_math_branch_clarification (fun _ => none) 0 "1+" (by decide) (by decide)).1
      (by decide) rfl,
   (C2_math_branch_clarification (fun _ => none) 0 "x" (by decide) (by decide)).2 (by decide)⟩

/-- C9 fails on the code: the time/date branch embeds the current clock, so
the same input `"time"` evaluated at two different instants yields different
replies — the generator is not a pure function of the message text. -/
theorem C9_counterexample :
    generateReply (fun _ => none) 0 "time" ≠ generateReply (fun _ => none) 1 "time" := by
  decide

/-- C9 (amended): outside the time/date rule the reply generator is a pure
function of the message text — for any input on which the time/date guard
fails, evaluations at two different clock instants agree. -/
theorem C9_pure_outside_time (evalFn : String → Option DecNum) (now1 now2 : Nat)
    (content : String) (ht : timeGuard content = false) :
    generateReply evalFn now1 content = generateReply evalFn now2 content := by
  unfold generateReply
  rw [ht]
  simp only [Bool.false_eq_true, if_false]

/-- Witness for C9 (amended) at `"hello"` across instants 0 and 99. -/
theorem C9_witness :
    generateReply (fun _ => none) 0 "hello" = generateReply (fun _ => none) 99 "hello" :=
  C9_pure_outside_time (fun _ => none) 0 99 "hello" (by decide)

/-- C3: on authenticated `GET /api/conversations/:id` the existence check
precedes the ownership check — a missing id yields 404, and an existing id
owned by another user yields 403 (never 404). -/
theorem C3_existence_before_ownership (verifyFn : String → Option String)
    (authHeader : Option String) (st : AppState) (uid id : String)
    (hauth : requireAuth verifyFn authHeader = .ok uid) :
    (getConversation st id = none →
      getConversationRoute verifyFn authHeader st id = .failure 404 "Conversation not found") ∧
    ∀ conv, getConversation st id = some conv → conv.userId ≠ uid →
      getConversationRoute verifyFn authHeader st id = .failure 403 "Access denied" := by
  unfold getConversationRoute
  rw [hauth]
  constructor
  · intro h
    rw [h]
  · intro conv h hne
    rw [h]
    dsimp only
    rw [if_pos hne]

/-- Witness for C3: a state owning `"c1"` by `"u2"`, queried by `"u1"`. -/
theorem C3_witness :
    getConversationRoute (fun t => if t == "tok" then some "u1" else none) (some "Bearer tok")
        ⟨[], [⟨"c1", "u2", "t", 0, 0⟩], [], 5⟩ "c1" = .failure 403 "Access denied" ∧
    getConversationRoute (fun t => if t == "tok" then some "u1" else none) (some "Bearer tok")
        ⟨[], [⟨"c1", "u2", "t", 0, 0⟩], [], 5⟩ "nope" = .failure 404 "Conversation not found" :=
  ⟨(C3_existence_before_ownership (fun t => if t == "tok" then some "u1" else none)
      (some "Bearer tok") ⟨[], [⟨"c1", "u2", "t", 0, 0⟩], [], 5⟩ "u1" "c1" rfl).2
      ⟨"c1", "u2", "t", 0, 0⟩ rfl (by decide),
   (C3_existence_before_ownership (fun t => if t == "tok" then some "u1" else none)
      (some "Bearer tok") ⟨[], [⟨"c1", "u2", "t", 0, 0⟩], [], 5⟩ "u1" "nope" rfl).1 rfl⟩

/-- C6: `createMessage` bumps the parent conversation's updated timestamp:
under a monotone clock (`conv.updatedAt ≤ now`), the timestamp after the call
is at least its value before the call. -/
theorem C6_createMessage_bumps_updatedAt (st : AppState) (d : InsertMessage) (now : Nat)
    (conv : Conversation) (hconv : getConversation st d.conversationId = some conv)
    (hclock : conv.updatedAt ≤ now) :
    ∃ conv2, getConversation (createMessage st d now).2 d.conversationId = some conv2 ∧
      conv.updatedAt ≤ conv2.updatedAt := by
  refine ⟨applyUpdate conv {} now, ?_, hclock⟩
  rw [getConversation_createMessage, hconv]
  rfl

/-- Witness for C6: a conversation last updated at 3 receives a message at 7. -/
theorem C6_witness :
    ∃ conv2,
      getConversation
          (createMessage ⟨[], [⟨"c1", "u1", "t", 0, 3⟩], [], 0⟩ ⟨"c1", "hi", "user"⟩ 7).2
          "c1" = some conv2 ∧ 3 ≤ conv2.updatedAt :=
  C6_createMessage_bumps_updatedAt _ ⟨"c1", "hi", "user"⟩ 7 ⟨"c1", "u1", "t", 0, 3⟩ rfl
    (by decide)

/-- C7: `deleteConversation` removes the conversation's messages and its row
(the source deletes the messages first, then the row; in this sequential model
both deletions are observable only jointly), returns whether a conversation
row was removed, and afterwards `getMessages` on the deleted id is empty. -/
theorem C7_deleteConversation_cascade (st : AppState) (id : String) :
    (deleteConversation st id).1 = (getConversation st id).isSome ∧
    getMessages (deleteConversation st id).2 id = [] ∧
    getConversation (deleteConversation st id).2 id = none := by
  refine ⟨any_eq_isSome_find _ _, ?_, ?_⟩
  · rw [getMessages_nil]
    dsimp [deleteConversation]
    rw [List.filter_filter]
    simp
  · dsimp [deleteConversation, getConversation]
    rw [List.find?_eq_none]
    intro c hc
    have h := List.of_mem_filter hc
    simpa using h

/-- C8: registering an existing username fails with the duplicate-username
400 error for every password, and leaves the state (in particular the user
table) unchanged. -/
theorem C8_duplicate_username (hashFn tokenFn : String → String) (st : AppState)
    (username password : String) (hdup : (getUserByUsername st username).isSome = true) :
    registerRoute hashFn tokenFn st username password
      = (.failure 400 "Username already exists", st) := by
  unfold registerRoute
  obtain ⟨u, hu⟩ := Option.isSome_iff_exists.mp hdup
  rw [hu]

/-- Witness for C8: re-registering `"alice"`. -/
theorem C8_witness :
    registerRoute id id ⟨[⟨"u1", "alice", "h"⟩], [], [], 1⟩ "alice" "whatever"
      = (.failure 400 "Username already exists", ⟨[⟨"u1", "alice", "h"⟩], [], [], 1⟩) :=
  C8_duplicate_username id id _ "alice" "whatever" (by decide)

/-- C10: on authenticated `POST /api/conversations` the created conversation's
owner is the `userId` of the verified bearer token; a `userId` field supplied
in the request body never influences the result. -/
theorem C10_owner_from_token (verifyFn : String → Option String) (authHeader : Option String)
    (st : AppState) (body : ConversationBody) (now : Nat) (uid : String)
    (hauth : requireAuth verifyFn authHeader = .ok uid) :
    ∃ conv st2,
      postConversationsRoute verifyFn authHeader st body now = (.json conv, st2) ∧
      conv.userId = uid ∧ conv ∈ st2.conversations ∧
      ∀ v : Option String,
        postConversationsRoute verifyFn authHeader st ⟨body.title, v⟩ now
          = postConversationsRoute verifyFn authHeader st body now := by
  unfold postConversationsRoute
  rw [hauth]
  refine ⟨_, _, rfl, rfl, ?_, fun v => rfl⟩
  dsimp [createConversation]
  exact List.mem_append_right _ (by simp)

/-- Witness for C10: a body carrying `userId := "attacker"` still yields a
conversation owned by the token's `"u9"`. -/
theorem C10_witness :
    ∃ conv st2,
      postConversationsRoute (fun t => if t == "tok" then some "u9" else none)
          (some "Bearer tok") ⟨[], [], [], 0⟩ ⟨some "T", some "attacker"⟩ 3 = (.json conv, st2) ∧
      conv.userId = "u9" ∧ conv ∈ st2.conversations ∧
      ∀ v : Option String,
        postConversationsRoute (fun t => if t == "tok" then some "u9" else none)
            (some "Bearer tok") ⟨[], [], [], 0⟩ ⟨some "T", v⟩ 3
          = postConversationsRoute (fun t => if t == "tok" then some "u9" else none)
              (some "Bearer tok") ⟨[], [], [], 0⟩ ⟨some "T", some "attacker"⟩ 3 :=
  C10_owner_from_token _ _ _ ⟨some "T", some "attacker"⟩ 3 "u9" rfl

/-- Reduction of the message route on the failure-recovery path: once auth,
validation and ownership pass and reply generation fails, the handler persists
the user message, then the apology, and returns the 500 payload. -/
theorem postMessageRoute_degraded (evalFn : String → Option DecNum)
    (verifyFn : String → Option String) (authHeader : Option String) (st : AppState)
    (conversationId content : String) (now : Nat) (uid : String) (conv : Conversation)
    (hauth : requireAuth verifyFn authHeader = .ok uid)
    (hcontent : content ≠ "")
    (hconv : getConversation st conversationId = some conv)
    (hown : conv.userId = uid)
    (hfail : generateReply evalFn now content = none) :
    postMessageRoute evalFn verifyFn authHeader st conversationId (some content) now
      = (.degraded (createMessage st ⟨conversationId, content, "user"⟩ now).1
          (createMessage (createMessage st ⟨conversationId, content, "user"⟩ now).2
            ⟨conversationId, apologyReply, "assistant"⟩ now).1
          "Response generation temporarily unavailable",
         (createMessage (createMessage st ⟨conversationId, content, "user"⟩ now).2
            ⟨conversationId, apologyReply, "assistant"⟩ now).2) := by
  unfold postMessageRoute
  rw [hauth]
  dsimp only
  rw [if_neg hcontent, hconv]
  dsimp only
  rw [if_neg (fun h => h hown), hfail]

/-- C4: when reply generation fails during `POST /api/conversations/:id/messages`,
the fallback apology is persisted as the assistant's reply in the conversation
and the response is a 500 carrying both the already-persisted user message and
that assistant error message — the user message is never left unpaired. -/
theorem C4_reply_failure_recovery (evalFn : String → Option DecNum)
    (verifyFn : String → Option String) (authHeader : Option String) (st : AppState)
    (conversationId content : String) (now : Nat) (uid : String) (conv : Conversation)
    (hauth : requireAuth verifyFn authHeader = .ok uid)
    (hcontent : content ≠ "")
    (hconv : getConversation st conversationId = some conv)
    (hown : conv.userId = uid)
    (hfail : generateReply evalFn now content = none) :
    ∃ userMessage errorMessage st2,
      postMessageRoute evalFn verifyFn authHeader st conversationId (some content) now
        = (.degraded userMessage errorMessage "Response generation temporarily unavailable",
           st2) ∧
      MsgResponse.status
          (.degraded userMessage errorMessage "Response generation temporarily unavailable")
        = 500 ∧
      userMessage.content = content ∧ userMessage.role = "user" ∧
      errorMessage.content = apologyReply ∧ errorMessage.role = "assistant" ∧
      userMessage ∈ getMessages st2 conversationId ∧
      errorMessage ∈ getMessages st2 conversationId := by
  refine ⟨_, _, _,
    postMessageRoute_degraded evalFn verifyFn authHeader st conversationId content now uid conv
      hauth hcontent hconv hown hfail, rfl, rfl, rfl, rfl, rfl, ?_, ?_⟩
  · rw [mem_getMessages]
    refine ⟨?_, rfl⟩
    rw [messages_createMessage, messages_createMessage]
    simp
  · rw [mem_getMessages]
    refine ⟨?_, rfl⟩
    rw [messages_createMessage]
    simp

/-- Witness for C4: the input `"x"` (whose reply is absent) on an owned
conversation. -/
theorem C4_witness :
    ∃ userMessage errorMessage st2,
      postMessageRoute (fun _ => none) (fun t => if t == "tok" then some "u1" else none)
          (some "Bearer tok") ⟨[], [⟨"c1", "u1", "", 0, 0⟩], [], 0⟩ "c1" (some "x") 5
        = (.degraded userMessage errorMessage "Response generation temporarily unavailable",
           st2) ∧
      MsgResponse.status
          (.degraded userMessage errorMessage "Response generation temporarily unavailable")
        = 500 ∧
      userMessage.content = "x" ∧ userMessage.role = "user" ∧
      errorMessage.content = apologyReply ∧ errorMessage.role = "assistant" ∧
      userMessage ∈ getMessages st2 "c1" ∧
      errorMessage ∈ getMessages st2 "c1" :=
  C4_reply_failure_recovery (fun _ => none) (fun t => if t == "tok" then some "u1" else none)
    (some "Bearer tok") ⟨[], [⟨"c1", "u1", "", 0, 0⟩], [], 0⟩ "c1" "x" 5 "u1"
    ⟨"c1", "u1", "", 0, 0⟩ rfl (by decide) rfl rfl (by decide)

/-- Appending a message adds exactly one row to its conversation's message
list. -/
theorem length_getMessages_createMessage (st : AppState) (d : InsertMessage) (now : Nat) :
    (getMessages (createMessage st d now).2 d.conversationId).length
      = (getMessages st d.conversationId).length + 1 := by
  rw [getMessages_length, getMessages_length, messages_createMessage, List.filter_append]
  have hbeq : ((createMessage st d now).1.conversationId == d.conversationId) = true :=
    beq_self_eq_true d.conversationId
  simp [List.filter_cons, hbeq]

/-- Reduction of the message route on the success path: once auth, validation
and ownership pass and a reply is generated, the handler persists both
messages, conditionally derives the title, and bumps the timestamp. -/
theorem postMessageRoute_ok (evalFn : String → Option DecNum)
    (verifyFn : String → Option String) (authHeader : Option String) (st : AppState)
    (conversationId content : String) (now : Nat) (uid : String) (conv : Conversation)
    (r : String)
    (hauth : requireAuth verifyFn authHeader = .ok uid)
    (hcontent : content ≠ "")
    (hconv : getConversation st conversationId = some conv)
    (hown : conv.userId = uid)
    (hr : generateReply evalFn now content = some r) :
    postMessageRoute evalFn verifyFn authHeader st conversationId (some content) now
      = (.ok (createMessage st ⟨conversationId, content, "user"⟩ now).1
          (createMessage (createMessage st ⟨conversationId, content, "user"⟩ now).2
            ⟨conversationId, r, "assistant"⟩ now).1,
         (updateConversation
            (if (getMessages (createMessage st ⟨conversationId, content, "user"⟩ now).2
                  conversationId).length == 1 then
              (updateConversation
                (createMessage (createMessage st ⟨conversationId, content, "user"⟩ now).2
                  ⟨conversationId, r, "assistant"⟩ now).2
                conversationId ⟨some (deriveTitle content), none⟩ now).2
            else
              (createMessage (createMessage st ⟨conversationId, content, "user"⟩ now).2
                ⟨conversationId, r, "assistant"⟩ now).2)
            conversationId ⟨none, some now⟩ now).2) := by
  unfold postMessageRoute
  rw [hauth]
  dsimp only
  rw [if_neg hcontent, hconv]
  dsimp only
  rw [if_neg (fun h => h hown), hr]

/-- C5 (amended): on the success path of the message route the title is
derived exactly once — the first message (empty prior history) sets the title
to the truncated content, and any later message leaves the already-set title
unchanged.  (On the failure-recovery path the title is left unset even for a
first message, which is what the counterexample exhibits.) -/
theorem C5_title_once (evalFn : String → Option DecNum) (verifyFn : String → Option String)
    (authHeader : Option String) (st : AppState) (conversationId content : String) (now : Nat)
    (uid : String) (conv : Conversation) (r : String)
    (hauth : requireAuth verifyFn authHeader = .ok uid)
    (hcontent : content ≠ "")
    (hconv : getConversation st conversationId = some conv)
    (hown : conv.userId = uid)
    (hr : generateReply evalFn now content = some r) :
    (getMessages st conversationId = [] →
      (getConversation
          (postMessageRoute evalFn verifyFn authHeader st conversationId (some content) now).2
          conversationId).map Conversation.title = some (deriveTitle content)) ∧
    (1 ≤ (getMessages st conversationId).length →
      (getConversation
          (postMessageRoute evalFn verifyFn authHeader st conversationId (some content) now).2
          conversationId).map Conversation.title = some conv.title) := by
  rw [postMessageRoute_ok evalFn verifyFn authHeader st conversationId content now uid conv r
    hauth hcontent hconv hown hr]
  have hlen := length_getMessages_createMessage st ⟨conversationId, content, "user"⟩ now
  constructor
  · intro hnil
    have h0 : (getMessages st conversationId).length = 0 := by rw [hnil]; rfl
    have hone : ((getMessages (createMessage st ⟨conversationId, content, "user"⟩ now).2
        conversationId).length == 1) = true := by
      rw [hlen, h0]
      rfl
    rw [hone]
    dsimp only
    rw [if_pos rfl]
    rw [getConversation_update, getConversation_update, getConversation_createMessage,
      getConversation_createMessage, hconv]
    simp [applyUpdate]
  · intro hge
    have hone : ((getMessages (createMessage st ⟨conversationId, content, "user"⟩ now).2
        conversationId).length == 1) = false := by
      rw [hlen]
      dsimp only
      rw [beq_eq_false_iff_ne]
      omega
    rw [hone]
    dsimp only
    rw [if_neg (fun h => Bool.false_ne_true h)]
    rw [getConversation_update, getConversation_createMessage,
      getConversation_createMessage, hconv]
    simp [applyUpdate]

set_option maxRecDepth 20000 in
/-- C5 fails on the code as stated: a first message whose reply is absent
(content `"x"`) takes the failure-recovery path, which skips the title update
— the message count after appending equals 1, yet the title stays `""` and
not the truncation of the content. -/
theorem C5_counterexample :
    getMessages ⟨[], [⟨"c1", "u1", "", 0, 0⟩], [], 0⟩ "c1" = [] ∧
    (getConversation
        (postMessageRoute (fun _ => none) (fun t => if t == "tok" then some "u1" else none)
          (some "Bearer tok") ⟨[], [⟨"c1", "u1", "", 0, 0⟩], [], 0⟩ "c1" (some "x") 5).2
        "c1").map Conversation.title = some "" ∧
    deriveTitle "x" ≠ "" := by decide

/-- Witness for C5 (amended): a first `"hello"` message sets the title; a
second message on a conversation titled `"Old"` leaves it unchanged. -/
theorem C5_witness :
    ((getConversation
        (postMessageRoute (fun _ => none) (fun t => if t == "tok" then some "u1" else none)
          (some "Bearer tok") ⟨[], [⟨"c1", "u1", "", 0, 0⟩], [], 0⟩ "c1" (some "hello") 5).2
        "c1").map Conversation.title = some (deriveTitle "hello")) ∧
    ((getConversation
        (postMessageRoute (fun _ => none) (fun t => if t == "tok" then some "u1" else none)
          (some "Bearer tok")
          ⟨[], [⟨"c1", "u1", "Old", 0, 0⟩], [⟨"m0", "c1", "prev", "user", 0⟩], 1⟩
          "c1" (some "hello") 5).2
        "c1").map Conversation.title = some "Old") :=
  ⟨(C5_title_once (fun _ => none) (fun t => if t == "tok" then some "u1" else none)
      (some "Bearer tok") ⟨[], [⟨"c1", "u1", "", 0, 0⟩], [], 0⟩ "c1" "hello" 5 "u1"
      ⟨"c1", "u1", "", 0, 0⟩ greetingReply rfl (by decide) rfl rfl (by decide)).1 rfl,
   (C5_title_once (fun _ => none) (fun t => if t == "tok" then some "u1" else none)
      (some "Bearer tok") ⟨[], [⟨"c1", "u1", "Old", 0, 0⟩], [⟨"m0", "c1", "prev", "user", 0⟩], 1⟩
      "c1" "hello" 5 "u1" ⟨"c1", "u1", "Old", 0, 0⟩ greetingReply rfl (by decide) rfl rfl
      (by decide)).2 (by decide)⟩
